import Mathlib

/-
Shallow embedding of the EDAbot multi-agent EDA pipeline
(source: src/edabot/eda_multiagent_pipeline.py) together with the
parts of the HTTP-facing loader it shares with src/edabot/eda_pipeline.py.

Modelling conventions:
* a pandas DataFrame is a list of named, dtype-tagged columns of cells;
  floating point values are idealised as exact rationals, and the
  real-valued FFT / standard-deviation computations as real numbers;
* a Python function that can raise is embedded as an `Except String`
  returning function whose error carries the exception's message;
* a Python dict is an association list `List (key × value)` built in
  insertion order.
-/

/- Batteries marks the rational-number operations `@[irreducible]`, which
blocks `decide`-style evaluation of the embedded pipeline on concrete
datasets; restore the default reducibility so concrete runs reduce. -/
set_option allowUnsafeReducibility true
attribute [semireducible] Rat.mul Rat.add Rat.sub Rat.inv

namespace EDABot

/-- Column dtype tag, as pandas infers it at load time.  `numeric` stands for
the numpy number dtypes accepted by `select_dtypes(include=["number"])` and
`is_numeric_dtype`; `datetime` for `np.datetime64` dtypes. -/
inductive Dtype where
  | numeric
  | text
  | datetime
  | other
deriving DecidableEq, Repr

/-- A single cell of a column: a (rational-idealised) number, a string, or a
missing value (NaN / None). -/
inductive Cell where
  | num (q : ℚ)
  | str (s : String)
  | null
deriving DecidableEq, Repr

/-- Whether the cell is detected by `pd.isnull`. -/
def Cell.isNull : Cell → Bool
  | .null => true
  | _ => false

/-- A named column with its dtype tag and cells. -/
structure Column where
  name : String
  dtype : Dtype
  values : List Cell
deriving DecidableEq, Repr

/-- The non-missing numeric values of a list of cells, in order: the model of
`series.dropna().values` for a numeric column. -/
def numsOf (cs : List Cell) : List ℚ :=
  cs.filterMap fun c => match c with
    | .num q => some q
    | _ => none

/-- A loaded pandas DataFrame: a row count and the named columns (each of
whose value lists has length `nrows` for a well-formed frame). -/
structure DataFrame where
  nrows : ℕ
  cols : List Column
deriving DecidableEq, Repr

/-- Whether a column has a numeric dtype (`pd.api.types.is_numeric_dtype`). -/
def Column.isNumeric (c : Column) : Bool := c.dtype == .numeric

/-- The numeric-dtype columns, in frame order: the model of
`df.select_dtypes(include=["number"]).columns`. -/
def DataFrame.numericCols (df : DataFrame) : List Column :=
  df.cols.filter Column.isNumeric

/-- Row `i` of the frame, as the list of cells across columns. -/
def DataFrame.row (df : DataFrame) (i : ℕ) : List Cell :=
  df.cols.map fun c => c.values.getD i .null

/-- All rows of the frame in order. -/
def DataFrame.rows (df : DataFrame) : List (List Cell) :=
  (List.range df.nrows).map df.row

/-- Linear interpolation at probability `q` in the sorted values `s` of
length `m + 1`: with `h = q*m` and `i = ⌊h⌋`, the value
`s[i] + (h-i)*(s[i+1] - s[i])` (when `h` is exact, `i = h` and the second
addend vanishes, so the out-of-range read of `s[i+1]` never occurs in
pandas; the `getD` default keeps the same value). -/
def quantileAt (s : List ℚ) (q : ℚ) (m : ℕ) : ℚ :=
  s.getD ((⌊q * (m : ℚ)⌋).toNat) 0 +
    (q * (m : ℚ) - ((⌊q * (m : ℚ)⌋).toNat : ℚ)) *
      (s.getD ((⌊q * (m : ℚ)⌋).toNat + 1) (s.getD ((⌊q * (m : ℚ)⌋).toNat) 0) -
        s.getD ((⌊q * (m : ℚ)⌋).toNat) 0)

/-- Linear-interpolation quantile over the given values, the default method of
`pandas.Series.quantile`: for sorted values `s` of length `n ≥ 1` and
`h = q*(n-1)`, the result is `s[⌊h⌋] + (h-⌊h⌋)*(s[⌊h⌋+1] - s[⌊h⌋])`.
Returns `none` (modelling NaN) when there are no values. -/
def quantile (xs : List ℚ) (q : ℚ) : Option ℚ :=
  match (xs.insertionSort (· ≤ ·)).length with
  | 0 => none
  | m + 1 =>
      some (quantileAt (xs.insertionSort (· ≤ ·)) q m)

/-- The IQR outlier test of `detect_anomalies`, on one value: strictly below
`Q1 - 1.5*IQR` or strictly above `Q3 + 1.5*IQR`. -/
def outOfBounds (q1 q3 v : ℚ) : Bool :=
  v < q1 - 3/2 * (q3 - q1) || q3 + 3/2 * (q3 - q1) < v

/-- Outlier count of one numeric column, the model of the body of the loop in
`detect_anomalies`: `Q1 = quantile(0.25)`, `Q3 = quantile(0.75)` over the
non-missing values, then the number of rows whose cell compares strictly
outside the fences (a NaN cell compares false on both sides, as in pandas). -/
def outlierCount (cs : List Cell) : ℕ :=
  match quantile (numsOf cs) (1/4), quantile (numsOf cs) (3/4) with
  | some q1, some q3 =>
      cs.countP fun c => match c with
        | .num v => outOfBounds q1 q3 v
        | _ => false
  | _, _ => 0

/-- The anomalies mapping of `detect_anomalies`: one entry per numeric-dtype
column, in frame order. -/
def anomaliesOf (df : DataFrame) : List (String × ℕ) :=
  df.numericCols.map fun c => (c.name, outlierCount c.values)

/-! ### Validator (`validate_data`) -/

/-- Word characters for the regex boundary `\b` (the patterns and the lowered
column names involved are ASCII). -/
def isWordChar (c : Char) : Bool := c.isAlphanum || c == '_'

/-- After an occurrence of `pat` at the head of `s`, the occurrence ends at a
word boundary: end of string or a non-word character. -/
def boundaryAfter (pat s : List Char) : Bool :=
  match s.drop pat.length with
  | [] => true
  | c :: _ => !isWordChar c

/-- Scan `s` for an occurrence of `pat` that both starts and ends at a word
boundary; `atBoundary` records whether the current position follows the start
of the string or a non-word character. -/
def wwAux (pat : List Char) : Bool → List Char → Bool
  | atBoundary, [] => atBoundary && pat.isEmpty
  | atBoundary, c :: rest =>
      (atBoundary && pat.isPrefixOf (c :: rest) && boundaryAfter pat (c :: rest)) ||
      wwAux pat (!isWordChar c) rest

/-- Whether `re.search(rf"\b{pat}\b", s)` finds a match. -/
def containsWholeWord (s pat : String) : Bool :=
  wwAux pat.toList true s.toList

/-- The fixed date-name vocabulary of `validate_data`. -/
def datePatterns : List String :=
  ["date", "published", "issued", "on", "created", "timestamp", "time", "day", "month", "hour"]

/-- Columns whose (lowered) name matches a date pattern as a whole word but
whose dtype is not `datetime64`: the `suspicious_date_columns` loop. -/
def suspiciousDateCols (cols : List Column) : List String :=
  (cols.filter fun c =>
      (datePatterns.any fun p => containsWholeWord c.name.toLower p) &&
      !(c.dtype == .datetime)).map Column.name

/-- Per-column null counts: `df.isnull().sum().to_dict()`. -/
def missingValuesOf (cols : List Column) : List (String × ℕ) :=
  cols.map fun c => (c.name, c.values.countP Cell.isNull)

/-- Count the rows that duplicate an earlier row, accumulating the rows seen
so far; `pd.DataFrame.duplicated()` marks every occurrence after the first. -/
def dupCountAux : List (List Cell) → List (List Cell) → ℕ
  | _, [] => 0
  | seen, r :: rest => (if r ∈ seen then 1 else 0) + dupCountAux (r :: seen) rest

/-- The whole-table duplicate-row count: `df.duplicated().sum()`. -/
def dupCount (rows : List (List Cell)) : ℕ := dupCountAux [] rows

/-- Amplitude of the `k`-th DFT coefficient of the data (unit sample
spacing), idealising the floating-point `scipy.fft.fft` over the reals. -/
noncomputable def dftAmp (data : List ℚ) (k : ℕ) : ℝ :=
  Complex.abs (∑ n ∈ Finset.range data.length,
    ((data.getD n 0 : ℚ) : ℂ) *
      Complex.exp (-(2 * Real.pi * Complex.I * (k : ℂ) * (n : ℂ)) / (data.length : ℂ)))

/-- The one-sided amplitude spectrum `2.0/N * np.abs(yf[:N//2])`. -/
noncomputable def amplitudeSpectrum (data : List ℚ) : List ℝ :=
  (List.range (data.length / 2)).map fun k => 2 / (data.length : ℝ) * dftAmp data k

/-- Peak of the (nonempty) amplitude spectrum, `np.max(amplitude)`; every
amplitude is nonnegative, so folding from `0` returns the maximum. -/
noncomputable def peakAmp (data : List ℚ) : ℝ :=
  (amplitudeSpectrum data).foldr max 0

/-- Message of the `ValueError` raised by `scipy.fft.fft` on a zero-length
array (modelled from the library's behaviour on empty input). -/
def fftEmptyMsg : String := "Invalid number of FFT data points (0) specified."

/-- Message of the `ValueError` raised by `np.max` on a zero-size array
(the amplitude slice `yf[:N//2]` is empty when `N == 1`). -/
def maxEmptyMsg : String := "zero-size array to reduction operation maximum which has no identity"

/-- The exception, if any, escaping `detect_cyclical_numeric_with_fft`: the
loop walks the columns in order and raises at the first numeric column whose
non-missing values number zero (inside `fft`) or one (inside `np.max`, the
amplitude slice being empty). -/
def cyclicalRaise : List Column → Option String
  | [] => none
  | c :: rest =>
      if c.isNumeric then
        match (numsOf c.values).length with
        | 0 => some fftEmptyMsg
        | 1 => some maxEmptyMsg
        | _ + 2 => cyclicalRaise rest
      else cyclicalRaise rest

open Classical in
/-- The `cyclical_cols` result when no column raises: the numeric columns
whose peak one-sided amplitude exceeds the fixed threshold `0.8`. -/
noncomputable def cyclicalColsList (cols : List Column) : List String :=
  (cols.filter fun c =>
      c.isNumeric && decide ((0.8 : ℝ) < peakAmp (numsOf c.values))).map Column.name

/-- The validation mapping assembled by `validate_data`. -/
structure Validation where
  missingValues : List (String × ℕ)
  duplicateRows : ℕ
  suspiciousDate : List String
  suspectedCyclical : List String

/-- The value `validate_data` stores into `state.validation` when the FFT
scan does not raise. -/
noncomputable def validationOf (df : DataFrame) : Validation where
  missingValues := missingValuesOf df.cols
  duplicateRows := dupCount df.rows
  suspiciousDate := suspiciousDateCols df.cols
  suspectedCyclical := cyclicalColsList df.cols

/-! ### Summarizer (`summary_info` and `generate_summary`) -/

/-- The shape metadata assembled by `summary_info`. -/
structure Info where
  rowCount : ℕ
  columnCount : ℕ
  columnNames : List String
deriving DecidableEq, Repr

/-- The value `summary_info` stores into `state.info`: `df.shape[0]`,
`df.shape[1]` and `df.columns.tolist()`. -/
def infoOf (df : DataFrame) : Info where
  rowCount := df.nrows
  columnCount := df.cols.length
  columnNames := df.cols.map Column.name

/-- Descriptive statistics of one numeric column as produced by
`df.describe()`: count of non-missing values, then mean, standard deviation,
min, the three quartiles and max (`none` models a NaN statistic). -/
structure NumStats where
  count : ℕ
  mean : Option ℚ
  std : Option ℝ
  min : Option ℚ
  q25 : Option ℚ
  q50 : Option ℚ
  q75 : Option ℚ
  max : Option ℚ

/-- Describe statistics of one object column (`df.describe()` falls back to
count / unique / top / freq when the frame has no numeric column). -/
structure ObjStats where
  count : ℕ
  unique : ℕ
  top : Option Cell
  freq : Option ℕ

/-- A column's entry in the describe mapping. -/
inductive ColStats where
  | nums (s : NumStats)
  | objs (s : ObjStats)

/-- The describe mapping, keyed by column name. -/
abbrev Summary := List (String × ColStats)

/-- Numeric describe row over the non-missing values of a column (sample
standard deviation with one delta degree of freedom, NaN below two values). -/
noncomputable def describeNum (xs : List ℚ) : NumStats :=
  let n := xs.length
  let mean : Option ℚ := if n = 0 then none else some (xs.sum / n)
  { count := n
    mean := mean
    std :=
      if 2 ≤ n then
        some (Real.sqrt ((xs.map fun x => ((x : ℝ) - ((xs.sum / n : ℚ) : ℝ)) ^ 2).sum / (n - 1)))
      else none
    min := (xs.insertionSort (· ≤ ·)).head?
    q25 := quantile xs (1/4)
    q50 := quantile xs (1/2)
    q75 := quantile xs (3/4)
    max := (xs.insertionSort (· ≤ ·)).getLast? }

/-- Most frequent non-missing value of a column with its frequency (ties
resolved arbitrarily by pandas; here, the earliest distinct value wins). -/
def topFreq (cs : List Cell) : Option (Cell × ℕ) :=
  ((cs.filter fun c => !c.isNull).dedup).foldl
    (fun acc v =>
      let k := (cs.filter fun c => !c.isNull).count v
      match acc with
      | none => some (v, k)
      | some (w, m) => if m < k then some (v, k) else some (w, m))
    none

/-- Object describe row of one column. -/
def describeObj (cs : List Cell) : ObjStats :=
  let present := cs.filter fun c => !c.isNull
  { count := present.length
    unique := present.dedup.length
    top := (topFreq cs).map Prod.fst
    freq := (topFreq cs).map Prod.snd }

/-- The result of `df.describe().to_dict()`: numeric columns when any exist,
otherwise all columns as object summaries; a frame without columns raises. -/
noncomputable def describe (df : DataFrame) : Except String Summary :=
  if df.cols.isEmpty then .error "Cannot describe a DataFrame without columns"
  else if df.cols.any Column.isNumeric then
    .ok (df.numericCols.map fun c => (c.name, ColStats.nums (describeNum (numsOf c.values))))
  else
    .ok (df.cols.map fun c => (c.name, ColStats.objs (describeObj c.values)))

/-! ### Visualization renderer (`create_visualizations`) -/

/-- One Python dict assignment `d[k] = v`: if the key is already present its
entry is updated in place (keys keep their first-insertion position),
otherwise the pair is appended. -/
def dictInsert (d : List (String × String)) (k v : String) : List (String × String) :=
  if d.any fun p => p.1 == k then
    d.map fun p => if p.1 == k then (k, v) else p
  else d ++ [(k, v)]

/-- The sequence of `plot_paths[...] = ...` assignments executed by
`create_visualizations`, in program order: for each numeric column the
combined figure, histogram, boxplot and QQ plot, then the correlation
heatmap when more than one numeric column exists.  The paths are exactly
the files written by `plt.savefig`. -/
def vizInserts (df : DataFrame) : List (String × String) :=
  (df.numericCols.flatMap fun c =>
    [(c.name, "static/" ++ c.name ++ "_plots.png"),
     (c.name ++ "_hist", "static/" ++ c.name ++ "_hist.png"),
     (c.name ++ "_boxplot", "static/" ++ c.name ++ "_boxplot.png"),
     (c.name ++ "_qqplot", "static/" ++ c.name ++ "_qqplot.png")]) ++
  (if 1 < df.numericCols.length then
    [("correlation_heatmap", "static/correlation_heatmap.png")]
   else [])

/-- The final `plot_paths` dict of `create_visualizations`: the assignments
applied in order with Python's last-write-wins dict semantics (a later
assignment to an existing key overwrites its value). -/
def vizPaths (df : DataFrame) : List (String × String) :=
  (vizInserts df).foldl (fun d p => dictInsert d p.1 p.2) []

/-! ### Narrator (`generate_narrative`) -/

/-- Fallback narrative produced by the `except` branch of
`generate_narrative`: an f-string around the exception text. -/
def fallbackMsg (e : String) : String :=
  "An error occurred while generating narrative: " ++ e

/-- Message of the error the OpenAI client raises at construction when no API
key is available (modelled from the library's behaviour without a key). -/
def missingKeyMsg : String :=
  "The api_key client option must be set either by passing api_key to the client or by setting the OPENAI_API_KEY environment variable"

/-- The Narrator's external world: the process-environment credential and the
outcome of the text-generation request when one is attempted. -/
structure NarratorEnv where
  apiKey : Option String
  callResult : Except String String

/-- Outcome of the whole `try` body of `generate_narrative`: constructing the
client without a credential raises before any request is made; otherwise the
call's own outcome (response text, or a network / auth / timeout / quota
exception message) decides. -/
def llmOutcome (env : NarratorEnv) : Except String String :=
  match env.apiKey with
  | none => .error missingKeyMsg
  | some _ => env.callResult

/-! ### Pipeline state, report and stage functions -/

/-- The final report assembled by `generate_report`, with the fixed top-level
keys `Validation`, `Summary_info`, `Summary`, `Anomalies`, `Narrative` and
`Visualizations`. -/
structure Report where
  validation : Option Validation
  summaryInfo : Option Info
  summary : Summary
  anomalies : List (String × ℕ)
  narrative : String
  visualizations : List (String × String)

/-- The shared `EDAState` threaded through the graph; an `Option` field is
`none` while the corresponding dict is still the empty initial `{}`. -/
structure EDAState where
  data : DataFrame
  validation : Option Validation
  info : Option Info
  summary : Summary
  anomalies : List (String × ℕ)
  visualizations : List (String × String)
  report : Option Report
  narrative : String

/-- The initial state built by `run_eda` around the loaded frame. -/
def initState (df : DataFrame) : EDAState where
  data := df
  validation := none
  info := none
  summary := []
  anomalies := []
  visualizations := []
  report := none
  narrative := ""

/-- Stage `validate_data`: raises out of the FFT scan on a numeric column
with fewer than two non-missing values, otherwise stores the validation
mapping. -/
noncomputable def validate_data (s : EDAState) : Except String EDAState :=
  match cyclicalRaise s.data.cols with
  | some msg => .error msg
  | none => .ok { s with validation := some (validationOf s.data) }

/-- Stage `summary_info`: stores the shape metadata. -/
def summary_info (s : EDAState) : EDAState :=
  { s with info := some (infoOf s.data) }

/-- Stage `generate_summary`: stores `df.describe().to_dict()`. -/
noncomputable def generate_summary (s : EDAState) : Except String EDAState :=
  (describe s.data).map fun sm => { s with summary := sm }

/-- Stage `create_visualizations`: stores the plot-path mapping. -/
def create_visualizations (s : EDAState) : EDAState :=
  { s with visualizations := vizPaths s.data }

/-- Stage `detect_anomalies`: stores the per-numeric-column outlier counts. -/
def detect_anomalies (s : EDAState) : EDAState :=
  { s with anomalies := anomaliesOf s.data }

/-- Stage `generate_narrative`: the response text on success, the fallback
string on any exception; never raises. -/
def generate_narrative (llm : Except String String) (s : EDAState) : EDAState :=
  { s with narrative := match llm with
      | .ok t => t
      | .error e => fallbackMsg e }

/-- The report value assembled from a state's fields. -/
def reportOf (s : EDAState) : Report where
  validation := s.validation
  summaryInfo := s.info
  summary := s.summary
  anomalies := s.anomalies
  narrative := s.narrative
  visualizations := s.visualizations

/-- Stage `generate_report`: assembles the final report from the state. -/
def generate_report (s : EDAState) : EDAState :=
  { s with report := some (reportOf s) }

/-! ### Graph construction (`build_graph`) and execution -/

/-- The edges added by `build_graph`, in source order; `"END"` stands for the
langgraph `END` sentinel. -/
def graphEdges : List (String × String) :=
  [("validate_data", "summary_info"),
   ("summary_info", "generate_summary"),
   ("generate_summary", "create_visualizations"),
   ("create_visualizations", "generate_anomalies"),
   ("generate_anomalies", "generate_narrative"),
   ("generate_narrative", "generate_report"),
   ("generate_report", "END")]

/-- The entry point set by `workflow.set_entry_point`. -/
def entryPoint : String := "validate_data"

/-- Walk the linear graph from a node, collecting the node names visited
before `END`; the fuel bounds the walk by the number of edges. -/
def follow (fuel : ℕ) (cur : String) : List String :=
  match fuel with
  | 0 => []
  | fuel + 1 =>
      if cur = "END" then []
      else
        cur :: (match graphEdges.lookup cur with
          | some nxt => follow fuel nxt
          | none => [])

/-- The sequence of nodes the compiled workflow executes. -/
def executionOrder : List String := follow (graphEdges.length + 1) entryPoint

/-- The node functions bound by `workflow.add_node`, dispatched by name; a
node that only transforms the state is wrapped in `.ok`. -/
noncomputable def runNode (llm : Except String String) (name : String) (s : EDAState) :
    Except String EDAState :=
  if name = "validate_data" then validate_data s
  else if name = "summary_info" then .ok (summary_info s)
  else if name = "generate_summary" then generate_summary s
  else if name = "create_visualizations" then .ok (create_visualizations s)
  else if name = "generate_anomalies" then .ok (detect_anomalies s)
  else if name = "generate_narrative" then .ok (generate_narrative llm s)
  else if name = "generate_report" then .ok (generate_report s)
  else .error ("Unknown node: " ++ name)

/-- Files a node writes to the shared `static/` output directory: only the
visualization renderer writes, one `plt.savefig` per recorded assignment
(every savefig executes even when a later dict assignment overwrites the
key). -/
def nodeWrites (name : String) (s : EDAState) : List String :=
  if name = "create_visualizations" then (vizInserts s.data).map Prod.snd else []

/-- Execute the listed nodes in order on the state, strictly sequentially: a
node starts only when its predecessor returned a state, and an exception
aborts the remainder.  Also returns the names of the nodes that started and
the files written. -/
noncomputable def invokeFrom (llm : Except String String) :
    List String → EDAState → Except String EDAState × List String × List String
  | [], s => (.ok s, [], [])
  | n :: rest, s =>
      match runNode llm n s with
      | .error e => (.error e, [n], nodeWrites n s)
      | .ok s' =>
          let r := invokeFrom llm rest s'
          (r.1, n :: r.2.1, nodeWrites n s ++ r.2.2)

/-! ### Loader and `run_eda` -/

/-- Message of the `ValueError` raised by `run_eda` for an extension other
than `.csv` / `.json`. -/
def unsupportedMsg : String := "Unsupported file format. Use CSV or JSON."

/-- An input file as `run_eda` sees it: its path and the outcome of parsing
its content as CSV or as JSON (`.error` carries the parser's message). -/
structure InputFile where
  path : String
  csvParse : Except String DataFrame
  jsonParse : Except String DataFrame

/-- The `str.endswith` test, on the characters of the strings. -/
def strEndsWith (path ext : String) : Bool :=
  ext.toList.isSuffixOf path.toList

/-- The loading branch of `run_eda`: `pd.read_csv` for a `.csv` path,
`pd.read_json` for a `.json` path, otherwise the unsupported-format error. -/
def loadData (f : InputFile) : Except String DataFrame :=
  if strEndsWith f.path ".csv" then f.csvParse
  else if strEndsWith f.path ".json" then f.jsonParse
  else .error unsupportedMsg

/-- `run_eda`, instrumented: the report or the message of the exception that
reached the top-level `except` (which the source turns into the structured
`{"error": str(e)}` value returned to the caller), together with the nodes
that started and the files written under the output directory. -/
noncomputable def run_eda_traced (llm : Except String String) (f : InputFile) :
    Except String Report × List String × List String :=
  match loadData f with
  | .error e => (.error e, [], [])
  | .ok df =>
      let r := invokeFrom llm executionOrder (initState df)
      match r.1 with
      | .error e => (.error e, r.2.1, r.2.2)
      | .ok s =>
          match s.report with
          | some rep => (.ok rep, r.2.1, r.2.2)
          | none => (.error "KeyError: report", r.2.1, r.2.2)

/-- The value `run_eda` hands to its caller: the final state's `report` field
on success, the structured error value otherwise. -/
noncomputable def run_eda (llm : Except String String) (f : InputFile) :
    Except String Report :=
  (run_eda_traced llm f).1

/-! ### Helper lemmas -/

/-- The compiled graph visits exactly the seven nodes in the linear order
determined by the edges. -/
lemma executionOrder_eq :
    executionOrder = ["validate_data", "summary_info", "generate_summary",
      "create_visualizations", "generate_anomalies", "generate_narrative",
      "generate_report"] := by decide

/-- Executing the graph is the strictly sequential composition of the seven
stage functions, aborted at the first exception; on the complete run the
started-node trace is the whole execution order and the written files are the
visualization paths. -/
lemma invokeFrom_run (llm : Except String String) (s : EDAState) :
    invokeFrom llm executionOrder s =
      match validate_data s with
      | .error e => (.error e, ["validate_data"], [])
      | .ok s1 =>
          match generate_summary (summary_info s1) with
          | .error e => (.error e, ["validate_data", "summary_info", "generate_summary"], [])
          | .ok s3 =>
              (.ok (generate_report (generate_narrative llm
                  (detect_anomalies (create_visualizations s3)))),
               executionOrder,
               (vizInserts s3.data).map Prod.snd) := by
  rw [executionOrder_eq]
  cases hv : validate_data s with
  | error e => simp [invokeFrom, runNode, nodeWrites, hv]
  | ok s1 =>
      cases hs : generate_summary (summary_info s1) with
      | error e => simp [invokeFrom, runNode, nodeWrites, hv, hs]
      | ok s3 => simp [invokeFrom, runNode, nodeWrites, hv, hs]

/-- The result component of graph execution, as the monadic composition of
the stage functions. -/
lemma invokeFrom_result (llm : Except String String) (s : EDAState) :
    (invokeFrom llm executionOrder s).1 =
      (validate_data s).bind fun s1 =>
        (generate_summary (summary_info s1)).map fun s3 =>
          generate_report (generate_narrative llm
            (detect_anomalies (create_visualizations s3))) := by
  rw [invokeFrom_run]
  cases hv : validate_data s with
  | error e => simp [Except.bind]
  | ok s1 =>
      cases hs : generate_summary (summary_info s1) with
      | error e => simp [hs, Except.bind, Except.map]
      | ok s3 => simp [hs, Except.bind, Except.map]

/-- `run_eda` as loading followed by graph execution followed by extraction
of the terminal state's report field. -/
lemma run_eda_eq (llm : Except String String) (f : InputFile) :
    run_eda llm f =
      (loadData f).bind fun df =>
        ((invokeFrom llm executionOrder (initState df)).1).bind fun s =>
          match s.report with
          | some rep => .ok rep
          | none => .error "KeyError: report" := by
  unfold run_eda run_eda_traced
  cases hl : loadData f with
  | error e => simp [Except.bind]
  | ok df =>
      simp only [Except.bind]
      cases hr : (invokeFrom llm executionOrder (initState df)).1 with
      | error e => simp [hr]
      | ok s => cases hrep : s.report <;> simp [hr, hrep]

/-- On a loaded frame whose Validator and Summarizer succeed, `run_eda`
returns the report assembled from the terminal state. -/
lemma run_eda_ok (llm : Except String String) (f : InputFile) (df : DataFrame)
    (s1 s3 : EDAState) (hload : loadData f = .ok df)
    (hv : validate_data (initState df) = .ok s1)
    (hs : generate_summary (summary_info s1) = .ok s3) :
    run_eda llm f =
      .ok (reportOf (generate_narrative llm
        (detect_anomalies (create_visualizations s3)))) := by
  rw [run_eda_eq, hload]
  simp only [Except.bind]
  rw [invokeFrom_result, hv]
  simp only [Except.bind]
  rw [hs]
  simp [Except.map, generate_report]

/-- A successful `validate_data` only sets the validation field. -/
lemma validate_ok_shape {s s' : EDAState} (h : validate_data s = .ok s') :
    s' = { s with validation := some (validationOf s.data) } := by
  unfold validate_data at h
  cases hc : cyclicalRaise s.data.cols with
  | some m => rw [hc] at h; cases h
  | none => rw [hc] at h; exact (Except.ok.injEq .. ▸ h).symm

/-- `validate_data` succeeds exactly when the FFT scan raises nowhere. -/
lemma validate_ok_iff {s : EDAState} :
    (∃ s', validate_data s = .ok s') ↔ cyclicalRaise s.data.cols = none := by
  unfold validate_data
  cases hc : cyclicalRaise s.data.cols with
  | some m => simp
  | none => simp

/-- A successful `generate_summary` only sets the summary field, to the
describe result. -/
lemma generate_summary_shape {s s' : EDAState} (h : generate_summary s = .ok s') :
    ∃ sm, describe s.data = .ok sm ∧ s' = { s with summary := sm } := by
  unfold generate_summary at h
  cases hd : describe s.data with
  | error e => rw [hd] at h; cases h
  | ok sm => rw [hd] at h; exact ⟨sm, rfl, ((Except.ok.injEq ..).mp h).symm⟩

/-- Looking a column's name up in a mapping built over columns with
pairwise-distinct names finds that column's entry. -/
lemma lookup_map_name {α : Type} (f : Column → α) :
    ∀ (cols : List Column), (cols.map Column.name).Nodup →
      ∀ c ∈ cols, (cols.map fun c => (c.name, f c)).lookup c.name = some (f c)
  | [], _, _, hc => by cases hc
  | d :: rest, hnd, c, hc => by
      rcases List.mem_cons.mp hc with h | h
      · subst h; simp [List.lookup]
      · have hne : c.name ≠ d.name := by
          intro he
          exact (List.nodup_cons.mp hnd).1 (he ▸ List.mem_map_of_mem Column.name h)
        have : (c.name == d.name) = false := by
          simp [beq_iff_eq]; exact hne
        simp only [List.map_cons, List.lookup, this]
        exact lookup_map_name f rest (List.nodup_cons.mp hnd).2 c h

/-- A key absent from the first components of an association list has no
entry. -/
lemma lookup_eq_none {α : Type} (a : String) :
    ∀ (l : List (String × α)), (∀ p ∈ l, p.1 ≠ a) → l.lookup a = none
  | [], _ => rfl
  | p :: rest, h => by
      have : (a == p.1) = false := by
        simp [beq_iff_eq]; exact fun he => h p (List.mem_cons_self p rest) he.symm
      simp only [List.lookup, this]
      exact lookup_eq_none a rest fun q hq => h q (List.mem_cons_of_mem p hq)

/-- The duplicate-row scan returns zero exactly when the rows are pairwise
distinct and none of them was seen before. -/
lemma dupCountAux_eq_zero_iff :
    ∀ (l seen : List (List Cell)),
      dupCountAux seen l = 0 ↔ l.Nodup ∧ ∀ r ∈ l, r ∉ seen
  | [], seen => by simp [dupCountAux]
  | r :: rest, seen => by
      rw [dupCountAux]
      constructor
      · intro h
        have h1 : (if r ∈ seen then 1 else 0) = 0 ∧ dupCountAux (r :: seen) rest = 0 :=
          by omega
        have hr : r ∉ seen := by
          by_contra hmem; simp [hmem] at h1
        have hrec := (dupCountAux_eq_zero_iff rest (r :: seen)).mp h1.2
        refine ⟨List.nodup_cons.mpr ⟨fun hmem => ?_, hrec.1⟩, ?_⟩
        · exact (hrec.2 r hmem) (List.mem_cons_self r seen)
        · intro x hx
          rcases List.mem_cons.mp hx with h | h
          · exact h ▸ hr
          · exact fun hmem => (hrec.2 x h) (List.mem_cons_of_mem r hmem)
      · rintro ⟨hnd, hseen⟩
        have hr : r ∉ seen := hseen r (List.mem_cons_self r rest)
        have : dupCountAux (r :: seen) rest = 0 := by
          refine (dupCountAux_eq_zero_iff rest (r :: seen)).mpr
            ⟨(List.nodup_cons.mp hnd).2, ?_⟩
          intro x hx hmem
          rcases List.mem_cons.mp hmem with h | h
          · exact (List.nodup_cons.mp hnd).1 (h ▸ hx)
          · exact hseen x (List.mem_cons_of_mem r hx) h
        simp [hr, this]

/-- `duplicated().sum()` is zero exactly when no row repeats. -/
lemma dupCount_eq_zero_iff (rows : List (List Cell)) :
    dupCount rows = 0 ↔ rows.Nodup := by
  rw [dupCount, dupCountAux_eq_zero_iff]
  simp

/-- Counting cells whose numeric value passes a test is counting passing
values among the non-missing numeric values. -/
lemma countP_cells_eq (p : ℚ → Bool) :
    ∀ cs : List Cell,
      (cs.countP fun c => match c with | .num v => p v | _ => false) =
        (numsOf cs).countP p
  | [] => rfl
  | c :: rest => by
      cases c <;>
        simp [List.countP_cons, numsOf, List.filterMap_cons, countP_cells_eq p rest]

/-- The linear-interpolation quantile of a nonempty constant list is the
constant, for any probability in `[0, 1]`. -/
lemma quantile_const {xs : List ℚ} {k : ℚ} (hne : xs ≠ []) (hall : ∀ v ∈ xs, v = k)
    {q : ℚ} (h1 : q ≤ 1) : quantile xs q = some k := by
  obtain ⟨m, hm⟩ : ∃ m, xs.length = m + 1 := by
    cases hx : xs with
    | nil => exact absurd hx hne
    | cons a l => exact ⟨l.length, by simp⟩
  have hsl : (xs.insertionSort (· ≤ ·)).length = m + 1 := by
    rw [List.length_insertionSort, hm]
  have hmem : ∀ v ∈ xs.insertionSort (· ≤ ·), v = k := fun v hv =>
    hall v ((List.perm_insertionSort (· ≤ ·) xs).subset hv)
  have him : ((⌊q * (m : ℚ)⌋).toNat) ≤ m := by
    have h2 : q * (m : ℚ) ≤ (m : ℚ) := by
      calc q * (m : ℚ) ≤ 1 * (m : ℚ) := by
            exact mul_le_mul_of_nonneg_right h1 (by positivity)
        _ = (m : ℚ) := one_mul _
    have h3 : ⌊q * (m : ℚ)⌋ ≤ (m : ℤ) := by
      calc ⌊q * (m : ℚ)⌋ ≤ ⌊(m : ℚ)⌋ := Int.floor_le_floor h2
        _ = (m : ℤ) := by exact_mod_cast Int.floor_natCast m
    exact Int.toNat_le.mpr h3
  have hlo : (xs.insertionSort (· ≤ ·)).getD ((⌊q * (m : ℚ)⌋).toNat) 0 = k := by
    rw [List.getD_eq_getElem _ 0 (by omega)]
    exact hmem _ (List.getElem_mem _)
  have hhi : (xs.insertionSort (· ≤ ·)).getD ((⌊q * (m : ℚ)⌋).toNat + 1)
      ((xs.insertionSort (· ≤ ·)).getD ((⌊q * (m : ℚ)⌋).toNat) 0) = k := by
    by_cases hlt : (⌊q * (m : ℚ)⌋).toNat + 1 < m + 1
    · rw [List.getD_eq_getElem _ _ (by omega)]
      exact hmem _ (List.getElem_mem _)
    · rw [List.getD_eq_default _ _ (by omega)]
      exact hlo
  have hq : quantileAt (xs.insertionSort (· ≤ ·)) q m = k := by
    unfold quantileAt
    rw [hhi, hlo]
    ring
  unfold quantile
  rw [hsl]
  show some (quantileAt (xs.insertionSort (· ≤ ·)) q m) = some k
  rw [hq]

/-- A column whose non-missing values are all equal (in particular, a
zero-variance or all-missing column) produces outlier count zero. -/
lemma outlierCount_const {cs : List Cell} {k : ℚ}
    (hall : ∀ v ∈ numsOf cs, v = k) : outlierCount cs = 0 := by
  unfold outlierCount
  by_cases hne : numsOf cs = []
  · rw [hne]
    rfl
  · rw [quantile_const hne hall (by norm_num : (1:ℚ)/4 ≤ 1),
        quantile_const hne hall (by norm_num : (3:ℚ)/4 ≤ 1)]
    rw [List.countP_eq_zero]
    intro c hc
    cases c with
    | num v =>
        have hv : v = k := hall v (List.mem_filterMap.mpr ⟨.num v, hc, rfl⟩)
        subst hv
        simp only [outOfBounds]
        have hb : ¬ (v < v - 3/2 * (v - v)) := by ring_nf; exact lt_irrefl v
        have hb2 : ¬ (v + 3/2 * (v - v) < v) := by ring_nf; exact lt_irrefl v
        simp [hb, hb2]
    | str s => simp
    | null => simp

/-- Applying dict assignments whose keys are pairwise distinct and disjoint
from the accumulator's keys just appends them. -/
lemma foldl_dictInsert_append : ∀ (l acc : List (String × String)),
    (l.map Prod.fst).Nodup → (∀ p ∈ acc, ∀ q ∈ l, p.1 ≠ q.1) →
    List.foldl (fun d p => dictInsert d p.1 p.2) acc l = acc ++ l
  | [], acc, _, _ => by simp
  | (k, v) :: rest, acc, hnd, hdisj => by
      have hnd0 : k ∉ rest.map Prod.fst ∧ (rest.map Prod.fst).Nodup := by
        have := hnd
        rw [List.map_cons, List.nodup_cons] at this
        exact this
      rw [List.foldl_cons]
      have hins : dictInsert acc k v = acc ++ [(k, v)] := by
        have hany : (acc.any fun p => p.1 == k) = false := by
          rw [List.any_eq_false]
          intro p hp
          simp only [beq_iff_eq]
          exact hdisj p hp (k, v) (List.mem_cons_self _ _)
        rw [dictInsert, hany]
        simp
      rw [hins]
      have hdisj' : ∀ p ∈ acc ++ [(k, v)], ∀ q ∈ rest, p.1 ≠ q.1 := by
        intro p hp q hq
        rcases List.mem_append.mp hp with h | h
        · exact hdisj p h q (List.mem_cons_of_mem _ hq)
        · rw [List.mem_singleton.mp h]
          intro he
          apply hnd0.1
          rw [show k = q.1 from he]
          exact List.mem_map_of_mem Prod.fst hq
      rw [foldl_dictInsert_append rest (acc ++ [(k, v)]) hnd0.2 hdisj']
      simp

/-- When the derived plot identifiers are pairwise distinct, no assignment
overwrites and the final dict is the assignment sequence itself. -/
lemma vizPaths_eq_inserts {df : DataFrame}
    (h : ((vizInserts df).map Prod.fst).Nodup) : vizPaths df = vizInserts df := by
  unfold vizPaths
  rw [foldl_dictInsert_append (vizInserts df) [] h (by simp)]
  simp

/-- A string extended by a suffix that does not occur at the end of the
target differs from the target. -/
lemma append_ne_of_not_suffix (nm suf t : String)
    (hs : ¬ suf.toList <:+ t.toList) : nm ++ suf ≠ t := by
  intro h
  apply hs
  rw [← h]
  exact ⟨nm.toList, rfl⟩

/-! ### Concrete datasets used by witnesses and counterexamples -/

/-- The scenario dataset of the specification: one numeric column
`x = [1, 2, 3, 4, 100]`. -/
def dfX : DataFrame := ⟨5, [⟨"x", .numeric, [.num 1, .num 2, .num 3, .num 4, .num 100]⟩]⟩

/-- A small loadable dataset on which every stage succeeds: one numeric
column `x = [1, 2]`. -/
def dfW : DataFrame := ⟨2, [⟨"x", .numeric, [.num 1, .num 2]⟩]⟩

/-- A loadable dataset with an all-missing numeric column. -/
def dfBad : DataFrame := ⟨2, [⟨"x", .numeric, [.null, .null]⟩]⟩

/-- A loadable dataset with a numeric column holding exactly one non-missing
value. -/
def dfOne : DataFrame := ⟨1, [⟨"x", .numeric, [.num 5]⟩]⟩

/-! ### Claim C1 — anomaly detection -/

/-- Outlier count as §4.4 of the specification words it, computed
independently over the non-missing values: `Q1` and `Q3` are the 25th and
75th percentiles, `IQR = Q3 − Q1`, and an outlier is any value strictly
below `Q1 − 1.5·IQR` or strictly above `Q3 + 1.5·IQR`. -/
def specOutlierCount (xs : List ℚ) : ℕ :=
  match quantile xs (1/4), quantile xs (3/4) with
  | some q1, some q3 =>
      xs.countP fun v =>
        decide (v < q1 - 3/2 * (q3 - q1) ∨ q3 + 3/2 * (q3 - q1) < v)
  | _, _ => 0

/-- The code's per-column outlier count agrees with the specification's
independent count over the non-missing values. -/
lemma outlierCount_eq_spec (cs : List Cell) :
    outlierCount cs = specOutlierCount (numsOf cs) := by
  unfold outlierCount specOutlierCount
  cases quantile (numsOf cs) (1/4) with
  | none => rfl
  | some q1 =>
      cases quantile (numsOf cs) (3/4) with
      | none => rfl
      | some q3 =>
          simp only []
          refine (countP_cells_eq (outOfBounds q1 q3) cs).trans ?_
          apply List.countP_congr
          intro v hv
          simp [outOfBounds]

/-- Names of the numeric columns stay pairwise distinct. -/
lemma numericCols_names_nodup {df : DataFrame}
    (hnd : (df.cols.map Column.name).Nodup) :
    (df.numericCols.map Column.name).Nodup :=
  List.Nodup.sublist (List.Sublist.map Column.name (List.filter_sublist df.cols)) hnd

/-- C1: for every dataset with distinct column names, the anomaly-detection
stage records, for each numeric column, exactly the specification's count of
values strictly outside the `[Q1 − 1.5·IQR, Q3 + 1.5·IQR]` fences over the
non-missing values (a natural number, hence nonnegative); non-numeric
columns are absent from the mapping; a zero-variance or all-missing column
yields count 0; and on the scenario column `x = [1,2,3,4,100]` the recorded
count is `anomalies["x"] = 1`. -/
theorem anomaly_counts_match_spec (s : EDAState)
    (hnd : (s.data.cols.map Column.name).Nodup) :
    (∀ c ∈ s.data.cols, c.dtype = .numeric →
        (detect_anomalies s).anomalies.lookup c.name =
          some (specOutlierCount (numsOf c.values)) ∧
        0 ≤ specOutlierCount (numsOf c.values)) ∧
    (∀ c ∈ s.data.cols, c.dtype ≠ .numeric →
        (detect_anomalies s).anomalies.lookup c.name = none) ∧
    (∀ c ∈ s.data.cols, c.dtype = .numeric →
        (∃ k, ∀ v ∈ numsOf c.values, v = k) →
        (detect_anomalies s).anomalies.lookup c.name = some 0) ∧
    (detect_anomalies (initState dfX)).anomalies.lookup "x" = some 1 := by
  have hmemNum : ∀ c ∈ s.data.cols, c.dtype = .numeric → c ∈ s.data.numericCols := by
    intro c hc hdt
    exact List.mem_filter.mpr ⟨hc, by simp [Column.isNumeric, hdt]⟩
  have hlook : ∀ c ∈ s.data.cols, c.dtype = .numeric →
      (detect_anomalies s).anomalies.lookup c.name =
        some (outlierCount c.values) := by
    intro c hc hdt
    exact lookup_map_name (fun c => outlierCount c.values) s.data.numericCols
      (numericCols_names_nodup hnd) c (hmemNum c hc hdt)
  refine ⟨?_, ?_, ?_, ?_⟩
  · intro c hc hdt
    exact ⟨(hlook c hc hdt).trans (by rw [outlierCount_eq_spec]), Nat.zero_le _⟩
  · intro c hc hdt
    refine lookup_eq_none c.name _ ?_
    rintro ⟨nm, cnt⟩ hp hne
    obtain ⟨d, hd, hdq⟩ := List.mem_map.mp hp
    have hdcols : d ∈ s.data.cols := List.mem_of_mem_filter hd
    have hdnum : d.isNumeric = true := List.of_mem_filter hd
    have : d = c := by
      have hnames : d.name = c.name := by
        have := congrArg Prod.fst hdq
        simpa using this.trans hne
      exact List.inj_on_of_nodup_map hnd hdcols hc hnames
    rw [this] at hdnum
    simp [Column.isNumeric, hdt] at hdnum
  · rintro c hc hdt ⟨k, hk⟩
    rw [hlook c hc hdt, outlierCount_const hk]
  · decide

/-- Witness for C1: the scenario dataset has distinct column names, and the
theorem applied to it yields the scenario count `anomalies["x"] = 1`. -/
theorem anomaly_counts_match_spec_witness :
    (dfX.cols.map Column.name).Nodup ∧
    (detect_anomalies (initState dfX)).anomalies.lookup "x" = some 1 :=
  ⟨by decide, (anomaly_counts_match_spec (initState dfX) (by decide)).2.2.2⟩

/-! ### Claim C2 — loader failures surface before any stage -/

/-- C2: a path ending in neither `.csv` nor `.json` makes `run_eda` return
the unsupported-format error before any node starts and before any file is
written; a `.csv` or `.json` path whose content fails to parse makes it
return the parser's own error (the underlying failure surfaced unchanged to
the caller), likewise with no node started, no file written and no partial
report. -/
theorem loader_failures_surface_before_stages :
    (∀ llm f, strEndsWith f.path ".csv" = false → strEndsWith f.path ".json" = false →
        run_eda_traced llm f = (.error unsupportedMsg, [], [])) ∧
    (∀ llm f e, strEndsWith f.path ".csv" = true → f.csvParse = .error e →
        run_eda_traced llm f = (.error e, [], [])) ∧
    (∀ llm f e, strEndsWith f.path ".csv" = false → strEndsWith f.path ".json" = true →
        f.jsonParse = .error e →
        run_eda_traced llm f = (.error e, [], [])) := by
  refine ⟨?_, ?_, ?_⟩
  · intro llm f h1 h2
    simp [run_eda_traced, loadData, h1, h2]
  · intro llm f e h1 h2
    simp [run_eda_traced, loadData, h1, h2]
  · intro llm f e h1 h2 h3
    simp [run_eda_traced, loadData, h1, h2, h3]

/-- Witness for C2: a `.txt` upload, a malformed CSV and a malformed JSON
file, each run through the pipeline. -/
theorem loader_failures_surface_before_stages_witness :
    (strEndsWith "a.txt" ".csv" = false ∧ strEndsWith "a.txt" ".json" = false ∧
      run_eda_traced (.ok "t") ⟨"a.txt", .error "x", .error "y"⟩ =
        (.error unsupportedMsg, [], [])) ∧
    (strEndsWith "m.csv" ".csv" = true ∧
      run_eda_traced (.ok "t") ⟨"m.csv", .error "ParserError: bad line", .error "y"⟩ =
        (.error "ParserError: bad line", [], [])) ∧
    (strEndsWith "m.json" ".csv" = false ∧ strEndsWith "m.json" ".json" = true ∧
      run_eda_traced (.ok "t") ⟨"m.json", .error "x", .error "ValueError: invalid JSON"⟩ =
        (.error "ValueError: invalid JSON", [], [])) :=
  ⟨⟨by decide, by decide,
      loader_failures_surface_before_stages.1 (.ok "t") ⟨"a.txt", .error "x", .error "y"⟩
        (by decide) (by decide)⟩,
   ⟨by decide,
      loader_failures_surface_before_stages.2.1 (.ok "t")
        ⟨"m.csv", .error "ParserError: bad line", .error "y"⟩ "ParserError: bad line"
        (by decide) rfl⟩,
   ⟨by decide, by decide,
      loader_failures_surface_before_stages.2.2 (.ok "t")
        ⟨"m.json", .error "x", .error "ValueError: invalid JSON"⟩ "ValueError: invalid JSON"
        (by decide) (by decide) rfl⟩⟩

/-! ### Claim C10 — the Validator is not total -/

/-- The all-missing dataset arriving as a parsed CSV file. -/
def fBad : InputFile := ⟨"data.csv", .ok dfBad, .error "unused"⟩

/-- C10: on a loadable dataset whose numeric column has zero non-missing
values, the cyclical-signal detection raises (the FFT call rejects the empty
array after `dropna`), so `validate_data` produces no validation output and
the whole invocation aborts into the top-level error result, the Validator
being the only node that started. -/
theorem validator_not_total_on_all_missing :
    validate_data (initState dfBad) = .error fftEmptyMsg ∧
    run_eda_traced (.ok "narrative") fBad = (.error fftEmptyMsg, ["validate_data"], []) :=
  ⟨rfl, rfl⟩

/-! ### Claim C4 — fixed linear stage order -/

/-- C4: the compiled graph's execution order is exactly Validator,
Summarizer (shape metadata then descriptive statistics), Visualization
Renderer, Anomaly Detector, Narrator, Report Assembler; executing the graph
is the strictly sequential composition of the stage functions in that order
(so no stage is skipped, reordered, or started before its predecessor
returns); and the value `run_eda` returns on a loaded frame is exactly the
terminal state's report field. -/
theorem pipeline_fixed_linear_order :
    executionOrder = ["validate_data", "summary_info", "generate_summary",
      "create_visualizations", "generate_anomalies", "generate_narrative",
      "generate_report"] ∧
    (∀ llm s0,
      (invokeFrom llm executionOrder s0).1 =
        (validate_data s0).bind fun s1 =>
          (generate_summary (summary_info s1)).map fun s3 =>
            generate_report (generate_narrative llm
              (detect_anomalies (create_visualizations s3)))) ∧
    (∀ llm f df, loadData f = .ok df →
      run_eda llm f =
        ((invokeFrom llm executionOrder (initState df)).1).bind fun s =>
          match s.report with
          | some rep => .ok rep
          | none => .error "KeyError: report") := by
  refine ⟨executionOrder_eq, ?_, ?_⟩
  · intro llm s0
    exact invokeFrom_result llm s0
  · intro llm f df hload
    rw [run_eda_eq, hload]
    simp [Except.bind]

/-- Witness for C4: the loaded two-row dataset satisfies the load hypothesis
and the returned value is the terminal state's report field. -/
theorem pipeline_fixed_linear_order_witness :
    loadData ⟨"data.csv", .ok dfW, .error "unused"⟩ = .ok dfW ∧
    run_eda (.ok "t") ⟨"data.csv", .ok dfW, .error "unused"⟩ =
      ((invokeFrom (.ok "t") executionOrder (initState dfW)).1).bind fun s =>
        match s.report with
        | some rep => .ok rep
        | none => .error "KeyError: report" :=
  ⟨rfl, pipeline_fixed_linear_order.2.2 (.ok "t") ⟨"data.csv", .ok dfW, .error "unused"⟩
      dfW rfl⟩

/-! ### Claim C8 — re-running yields identical core fields -/

/-- Projection of a pipeline result onto the narrative-independent report
fields: validation, shape metadata, descriptive statistics and anomalies. -/
def reportCore :
    Except String Report →
      Except String (Option Validation × Option Info × Summary × List (String × ℕ))
  | .error e => .error e
  | .ok r => .ok (r.validation, r.summaryInfo, r.summary, r.anomalies)

/-- C8: running the pipeline twice on the same input file is literally the
same computation, and even across different outcomes of the external
text-generation call the resulting reports agree on validation, info,
summary and anomalies (only the narrative may vary). -/
theorem rerun_core_report_deterministic (f : InputFile)
    (llm1 llm2 : Except String String) :
    run_eda llm1 f = run_eda llm1 f ∧
    reportCore (run_eda llm1 f) = reportCore (run_eda llm2 f) := by
  refine ⟨rfl, ?_⟩
  rw [run_eda_eq, run_eda_eq]
  cases hl : loadData f with
  | error e => rfl
  | ok df =>
      simp only [Except.bind]
      rw [invokeFrom_result, invokeFrom_result]
      cases hv : validate_data (initState df) with
      | error e => rfl
      | ok s1 =>
          simp only [Except.bind]
          cases hs : generate_summary (summary_info s1) with
          | error e => rfl
          | ok s3 =>
              simp [Except.map, generate_report, generate_narrative, reportCore,
                detect_anomalies, create_visualizations, reportOf]

/-! ### Claim C7 — shape metadata -/

/-- C7: on any loaded table with at least one row, `summary_info` stores the
literal row count, the literal column count and the column-name list, and
the stored metadata depends only on the shape and names, not on the
columns' data types or values. -/
theorem shape_metadata_literal (s : EDAState) (h : 1 ≤ s.data.nrows) :
    (summary_info s).info = some (infoOf s.data) ∧
    (infoOf s.data).rowCount = s.data.nrows ∧
    (infoOf s.data).columnCount = s.data.cols.length ∧
    (infoOf s.data).columnNames = s.data.cols.map Column.name ∧
    (∀ df' : DataFrame, s.data.nrows = df'.nrows →
        s.data.cols.map Column.name = df'.cols.map Column.name →
        infoOf s.data = infoOf df') := by
  refine ⟨rfl, rfl, rfl, rfl, ?_⟩
  intro df' h1 h2
  have h3 : s.data.cols.length = df'.cols.length := by
    have := congrArg List.length h2
    simpa using this
  unfold infoOf
  rw [h1, h2, h3]

/-- Witness for C7: the two-row dataset. -/
theorem shape_metadata_literal_witness :
    1 ≤ dfW.nrows ∧ (summary_info (initState dfW)).info = some (infoOf dfW) :=
  ⟨by decide, (shape_metadata_literal (initState dfW) (by decide)).1⟩

/-! ### Claim C6 — visualization identifiers -/

/-- A dataset with a single numeric column literally named
`correlation_heatmap`. -/
def dfCH : DataFrame := ⟨1, [⟨"correlation_heatmap", .numeric, [.num 1]⟩]⟩

/-- A dataset whose numeric columns `a` and `a_hist` make two different
assignments to the dict key `"a_hist"`. -/
def dfAA : DataFrame :=
  ⟨2, [⟨"a", .numeric, [.num 1, .num 2]⟩, ⟨"a_hist", .numeric, [.num 3, .num 4]⟩]⟩

/-- Counterexample to C6 as stated: the visualization mapping of `dfCH`
contains the key `"correlation_heatmap"` (the per-column entry
`plot_paths[f"{col}"]` for the column of that name) although the dataset has
only one numeric column, so the if-and-only-if of the claim fails.
Moreover on `dfAA` the later bare assignment `plot_paths[f"{col}"]` for
column `a_hist` overwrites column `a`'s histogram entry, so the key
`"a_hist"` ends up mapped to the combined-figure path, not to column `a`'s
histogram path. -/
theorem heatmap_key_without_two_numeric_columns :
    ¬ (("correlation_heatmap" ∈
          ((create_visualizations (initState dfCH)).visualizations.map Prod.fst)) ↔
        1 < dfCH.numericCols.length) ∧
    ("a_hist", "static/a_hist.png") ∉
      (create_visualizations (initState dfAA)).visualizations ∧
    ("a_hist", "static/a_hist_plots.png") ∈
      (create_visualizations (initState dfAA)).visualizations := by decide

/-- The three per-plot suffixes never turn a column name into the reserved
heatmap key. -/
lemma suffixed_key_ne_heatmap (nm : String) :
    nm ++ "_hist" ≠ "correlation_heatmap" ∧
    nm ++ "_boxplot" ≠ "correlation_heatmap" ∧
    nm ++ "_qqplot" ≠ "correlation_heatmap" :=
  ⟨append_ne_of_not_suffix nm "_hist" "correlation_heatmap" (by decide),
   append_ne_of_not_suffix nm "_boxplot" "correlation_heatmap" (by decide),
   append_ne_of_not_suffix nm "_qqplot" "correlation_heatmap" (by decide)⟩

/-- C6 (amended: provided the derived plot identifiers are pairwise
distinct — no column named `correlation_heatmap` and no column name
colliding with another column's identifier, since a colliding Python dict
assignment overwrites the earlier entry): the visualization mapping
contains, for each numeric column, the stable identifiers `<col>_hist`,
`<col>_boxplot` and `<col>_qqplot` mapped to paths derived from the column
name under the shared `static/` directory; it contains the key
`correlation_heatmap` if and only if more than one numeric column exists;
and a dataset with zero numeric columns yields no heatmap entry and an
empty anomalies mapping. -/
theorem visualization_keys_match_spec (s : EDAState)
    (hnd : ((vizInserts s.data).map Prod.fst).Nodup)
    (hres : "correlation_heatmap" ∉ s.data.cols.map Column.name) :
    (create_visualizations s).visualizations = vizPaths s.data ∧
    (∀ c ∈ s.data.cols, c.dtype = .numeric →
        (c.name ++ "_hist", "static/" ++ c.name ++ "_hist.png") ∈ vizPaths s.data ∧
        (c.name ++ "_boxplot", "static/" ++ c.name ++ "_boxplot.png") ∈ vizPaths s.data ∧
        (c.name ++ "_qqplot", "static/" ++ c.name ++ "_qqplot.png") ∈ vizPaths s.data) ∧
    ("correlation_heatmap" ∈ (vizPaths s.data).map Prod.fst ↔
        1 < s.data.numericCols.length) ∧
    (s.data.numericCols = [] →
        "correlation_heatmap" ∉ (vizPaths s.data).map Prod.fst ∧
        (detect_anomalies s).anomalies = []) := by
  have hvp := vizPaths_eq_inserts hnd
  refine ⟨rfl, ?_, ?_, ?_⟩
  · rw [hvp]
    intro c hc hdt
    have hcn : c ∈ s.data.numericCols :=
      List.mem_filter.mpr ⟨hc, by simp [Column.isNumeric, hdt]⟩
    refine ⟨?_, ?_, ?_⟩ <;>
      exact List.mem_append_left _ (List.mem_flatMap.mpr ⟨c, hcn, by simp⟩)
  · rw [hvp]
    constructor
    · intro hmem
      obtain ⟨⟨key, path⟩, hp, hkey⟩ := List.mem_map.mp hmem
      rcases List.mem_append.mp hp with hflat | hite
      · obtain ⟨c, hcn, hpl⟩ := List.mem_flatMap.mp hflat
        exfalso
        have hname : c.name ∈ s.data.cols.map Column.name :=
          List.mem_map_of_mem Column.name (List.mem_of_mem_filter hcn)
        simp only [List.mem_cons, List.not_mem_nil, or_false] at hpl
        rcases hpl with h | h | h | h
        · apply hres
          rw [show c.name = "correlation_heatmap" from
            (congrArg Prod.fst h).symm.trans hkey] at hname
          exact hname
        · exact (suffixed_key_ne_heatmap c.name).1
            ((congrArg Prod.fst h).symm.trans hkey)
        · exact (suffixed_key_ne_heatmap c.name).2.1
            ((congrArg Prod.fst h).symm.trans hkey)
        · exact (suffixed_key_ne_heatmap c.name).2.2
            ((congrArg Prod.fst h).symm.trans hkey)
      · by_cases hlen : 1 < s.data.numericCols.length
        · exact hlen
        · rw [if_neg hlen] at hite
          cases hite
    · intro hlen
      refine List.mem_map.mpr ⟨("correlation_heatmap", "static/correlation_heatmap.png"), ?_, rfl⟩
      exact List.mem_append_right _ (by rw [if_pos hlen]; exact List.mem_singleton.mpr rfl)
  · intro hzero
    constructor
    · rw [hvp]
      simp [vizInserts, hzero]
    · simp [detect_anomalies, anomaliesOf, hzero]

/-- Witness for C6: the two-row dataset's identifiers are pairwise distinct
with no reserved column name, its numeric column `x` receives its three
stable identifiers, and with a single numeric column there is no heatmap
entry. -/
theorem visualization_keys_match_spec_witness :
    ((vizInserts dfW).map Prod.fst).Nodup ∧
    "correlation_heatmap" ∉ dfW.cols.map Column.name ∧
    ("x_hist", "static/x_hist.png") ∈ vizPaths dfW ∧
    ¬ "correlation_heatmap" ∈ (vizPaths dfW).map Prod.fst := by
  have h := visualization_keys_match_spec (initState dfW) (by decide) (by decide)
  refine ⟨by decide, by decide, ?_, ?_⟩
  · exact (h.2.1 ⟨"x", .numeric, [.num 1, .num 2]⟩ (by decide) rfl).1
  · intro hmem
    exact absurd (h.2.2.1.mp hmem) (by decide)

/-! ### Claim C3 — narrator failure never escapes -/

/-- C3: whatever error the external text-generation call raises (including
the client-construction failure when the API credential is absent from the
process environment), `generate_narrative` returns normally with the
deterministic fallback string, which is non-empty and contains the error
description; and the invocation still completes, the final report carrying
every other field of the pipeline state. -/
theorem narrator_failure_degrades_gracefully (e : String) (f : InputFile)
    (df : DataFrame) (sm : Summary) (hload : loadData f = .ok df)
    (hv : cyclicalRaise df.cols = none) (hs : describe df = .ok sm) :
    (∀ s : EDAState, (generate_narrative (.error e) s).narrative = fallbackMsg e) ∧
    fallbackMsg e ≠ "" ∧
    (∃ pre, fallbackMsg e = pre ++ e) ∧
    (∀ env : NarratorEnv, env.apiKey = none → llmOutcome env = .error missingKeyMsg) ∧
    run_eda (.error e) f =
      .ok { validation := some (validationOf df)
            summaryInfo := some (infoOf df)
            summary := sm
            anomalies := anomaliesOf df
            narrative := fallbackMsg e
            visualizations := vizPaths df } := by
  refine ⟨fun s => rfl, ?_, ⟨"An error occurred while generating narrative: ", rfl⟩,
    fun env henv => by simp [llmOutcome, henv], ?_⟩
  · intro h
    have h2 : (fallbackMsg e).data.length = 0 := by rw [h]; rfl
    rw [show (fallbackMsg e).data =
        'A' :: ("n error occurred while generating narrative: ".data ++ e.data) from rfl] at h2
    simp at h2
  · obtain ⟨s1, hv1⟩ : ∃ s', validate_data (initState df) = .ok s' :=
      validate_ok_iff.mpr hv
    have hshape := validate_ok_shape hv1
    have hdata1 : s1.data = df := by rw [hshape]; rfl
    have hval1 : s1.validation = some (validationOf df) := by rw [hshape]; rfl
    have hs3 : generate_summary (summary_info s1) =
        .ok { summary_info s1 with summary := sm } := by
      have hd : (summary_info s1).data = df := by simp [summary_info, hdata1]
      have hdd : describe (summary_info s1).data = .ok sm := by rw [hd]; exact hs
      unfold generate_summary
      rw [hdd]
      rfl
    have hrun := run_eda_ok (.error e) f df _ _ hload hv1 hs3
    rw [hrun]
    simp only [reportOf, generate_narrative, detect_anomalies, create_visualizations,
      summary_info, anomaliesOf]
    rw [hdata1, hval1]

/-- Witness for C3: a timeout of the external call on the two-row dataset;
the hypotheses are discharged concretely and the narrative contains the
timeout indicator. -/
theorem narrator_failure_degrades_gracefully_witness :
    loadData ⟨"data.csv", .ok dfW, .error "unused"⟩ = .ok dfW ∧
    cyclicalRaise dfW.cols = none ∧
    describe dfW = .ok [("x", ColStats.nums (describeNum [1, 2]))] ∧
    run_eda (.error "Request timed out.") ⟨"data.csv", .ok dfW, .error "unused"⟩ =
      .ok { validation := some (validationOf dfW)
            summaryInfo := some (infoOf dfW)
            summary := [("x", ColStats.nums (describeNum [1, 2]))]
            anomalies := anomaliesOf dfW
            narrative := fallbackMsg "Request timed out."
            visualizations := vizPaths dfW } :=
  ⟨rfl, rfl, rfl,
    (narrator_failure_degrades_gracefully "Request timed out."
      ⟨"data.csv", .ok dfW, .error "unused"⟩ dfW
      [("x", ColStats.nums (describeNum [1, 2]))] rfl rfl rfl).2.2.2.2⟩

/-! ### Claim C9 — stages only touch their own field -/

/-- C9: each of the seven stage functions leaves every field of the shared
state other than its own output field unchanged; in particular the loaded
frame in `data` is only read, never replaced, by every post-load stage. -/
theorem stages_touch_only_own_field :
    (∀ s s' : EDAState, validate_data s = .ok s' →
        s'.data = s.data ∧ s'.info = s.info ∧ s'.summary = s.summary ∧
        s'.anomalies = s.anomalies ∧ s'.visualizations = s.visualizations ∧
        s'.report = s.report ∧ s'.narrative = s.narrative) ∧
    (∀ s : EDAState,
        (summary_info s).data = s.data ∧ (summary_info s).validation = s.validation ∧
        (summary_info s).summary = s.summary ∧ (summary_info s).anomalies = s.anomalies ∧
        (summary_info s).visualizations = s.visualizations ∧
        (summary_info s).report = s.report ∧ (summary_info s).narrative = s.narrative) ∧
    (∀ s s' : EDAState, generate_summary s = .ok s' →
        s'.data = s.data ∧ s'.validation = s.validation ∧ s'.info = s.info ∧
        s'.anomalies = s.anomalies ∧ s'.visualizations = s.visualizations ∧
        s'.report = s.report ∧ s'.narrative = s.narrative) ∧
    (∀ s : EDAState,
        (create_visualizations s).data = s.data ∧
        (create_visualizations s).validation = s.validation ∧
        (create_visualizations s).info = s.info ∧
        (create_visualizations s).summary = s.summary ∧
        (create_visualizations s).anomalies = s.anomalies ∧
        (create_visualizations s).report = s.report ∧
        (create_visualizations s).narrative = s.narrative) ∧
    (∀ s : EDAState,
        (detect_anomalies s).data = s.data ∧ (detect_anomalies s).validation = s.validation ∧
        (detect_anomalies s).info = s.info ∧ (detect_anomalies s).summary = s.summary ∧
        (detect_anomalies s).visualizations = s.visualizations ∧
        (detect_anomalies s).report = s.report ∧ (detect_anomalies s).narrative = s.narrative) ∧
    (∀ (llm : Except String String) (s : EDAState),
        (generate_narrative llm s).data = s.data ∧
        (generate_narrative llm s).validation = s.validation ∧
        (generate_narrative llm s).info = s.info ∧
        (generate_narrative llm s).summary = s.summary ∧
        (generate_narrative llm s).anomalies = s.anomalies ∧
        (generate_narrative llm s).visualizations = s.visualizations ∧
        (generate_narrative llm s).report = s.report) ∧
    (∀ s : EDAState,
        (generate_report s).data = s.data ∧ (generate_report s).validation = s.validation ∧
        (generate_report s).info = s.info ∧ (generate_report s).summary = s.summary ∧
        (generate_report s).anomalies = s.anomalies ∧
        (generate_report s).visualizations = s.visualizations ∧
        (generate_report s).narrative = s.narrative) := by
  refine ⟨?_, ?_, ?_, ?_, ?_, ?_, ?_⟩
  · intro s s' hv
    rw [validate_ok_shape hv]
    exact ⟨rfl, rfl, rfl, rfl, rfl, rfl, rfl⟩
  · exact fun s => ⟨rfl, rfl, rfl, rfl, rfl, rfl, rfl⟩
  · intro s s' hgs
    obtain ⟨sm, _, hsh⟩ := generate_summary_shape hgs
    rw [hsh]
    exact ⟨rfl, rfl, rfl, rfl, rfl, rfl, rfl⟩
  · exact fun s => ⟨rfl, rfl, rfl, rfl, rfl, rfl, rfl⟩
  · exact fun s => ⟨rfl, rfl, rfl, rfl, rfl, rfl, rfl⟩
  · exact fun llm s => ⟨rfl, rfl, rfl, rfl, rfl, rfl, rfl⟩
  · exact fun s => ⟨rfl, rfl, rfl, rfl, rfl, rfl, rfl⟩

/-- Witness for C9: a concrete successful `validate_data` run on the
two-row dataset leaves the frame untouched. -/
theorem stages_touch_only_own_field_witness :
    validate_data (initState dfW) =
      .ok { initState dfW with validation := some (validationOf dfW) } ∧
    ({ initState dfW with validation := some (validationOf dfW) } : EDAState).data =
      (initState dfW).data :=
  ⟨rfl, (stages_touch_only_own_field.1 (initState dfW) _ rfl).1⟩

/-! ### Claim C5 — validation mapping contents -/

/-- The FFT scan completes exactly when every numeric column has at least
two non-missing values. -/
lemma cyclicalRaise_eq_none_iff : ∀ cols : List Column,
    cyclicalRaise cols = none ↔
      ∀ c ∈ cols, c.dtype = .numeric → 2 ≤ (numsOf c.values).length
  | [] => by simp [cyclicalRaise]
  | c :: rest => by
      rw [cyclicalRaise, List.forall_mem_cons]
      by_cases hnum : c.isNumeric = true
      · have hdt : c.dtype = .numeric := by
          simpa [Column.isNumeric] using hnum
        rw [if_pos hnum]
        rcases hn : (numsOf c.values).length with _ | m
        · simp [hdt]
        · rcases m with _ | n
          · simp [hdt]
          · show cyclicalRaise rest = none ↔ _
            rw [cyclicalRaise_eq_none_iff rest]
            simp [hdt]
      · have hdt : ¬ c.dtype = .numeric := by
          simpa [Column.isNumeric] using hnum
        rw [if_neg hnum]
        rw [cyclicalRaise_eq_none_iff rest]
        simp [hdt]

/-- Counterexample to C5 as stated: on the loadable dataset `dfOne`, whose
numeric column has exactly one non-missing value, the Validator raises (the
one-sided amplitude slice `yf[:N//2]` is empty so `np.max` rejects it) and
produces no validation mapping at all — so not every loaded dataset gets
one. -/
theorem validator_raises_on_single_value_column :
    validate_data (initState dfOne) = .error maxEmptyMsg ∧
    run_eda_traced (.ok "t") ⟨"one.csv", .ok dfOne, .error "unused"⟩ =
      (.error maxEmptyMsg, ["validate_data"], []) :=
  ⟨rfl, rfl⟩

/-- C5 (amended: for every loaded dataset with distinct column names on
which the FFT scan completes, i.e. every numeric column has at least two
non-missing values — otherwise the Validator raises): the Validator's
mapping holds the per-column null counts, the whole-table duplicate-row
count (zero exactly when no row repeats), the columns whose name matches
the fixed date vocabulary whole-word and case-insensitively but whose dtype
is not temporal, and the numeric columns whose one-sided `2/N`-normalised
DFT amplitude spectrum peaks strictly above `0.8`. -/
theorem validation_entries_match_spec (s : EDAState)
    (hnd : (s.data.cols.map Column.name).Nodup)
    (hok : cyclicalRaise s.data.cols = none) :
    (cyclicalRaise s.data.cols = none ↔
        ∀ c ∈ s.data.cols, c.dtype = .numeric → 2 ≤ (numsOf c.values).length) ∧
    ∃ s', validate_data s = .ok s' ∧ ∃ v, s'.validation = some v ∧
      (∀ c ∈ s.data.cols,
          v.missingValues.lookup c.name = some (c.values.countP Cell.isNull)) ∧
      v.duplicateRows = dupCount s.data.rows ∧
      (v.duplicateRows = 0 ↔ s.data.rows.Nodup) ∧
      (∀ nm, nm ∈ v.suspiciousDate ↔ ∃ c ∈ s.data.cols, nm = c.name ∧
          ((datePatterns.any fun p => containsWholeWord c.name.toLower p) = true) ∧
          c.dtype ≠ .datetime) ∧
      (∀ nm, nm ∈ v.suspectedCyclical ↔ ∃ c ∈ s.data.cols, nm = c.name ∧
          c.dtype = .numeric ∧ (0.8 : ℝ) < peakAmp (numsOf c.values)) := by
  refine ⟨cyclicalRaise_eq_none_iff _, ?_⟩
  obtain ⟨s', hv⟩ : ∃ s', validate_data s = .ok s' := validate_ok_iff.mpr hok
  refine ⟨s', hv, validationOf s.data, by rw [validate_ok_shape hv], ?_, rfl, ?_, ?_, ?_⟩
  · intro c hc
    exact lookup_map_name (fun c => c.values.countP Cell.isNull) s.data.cols hnd c hc
  · exact dupCount_eq_zero_iff _
  · intro nm
    show nm ∈ suspiciousDateCols s.data.cols ↔ _
    unfold suspiciousDateCols
    rw [List.mem_map]
    constructor
    · rintro ⟨c, hcf, hname⟩
      have hc := List.mem_of_mem_filter hcf
      have hp := List.of_mem_filter hcf
      rw [Bool.and_eq_true] at hp
      refine ⟨c, hc, hname.symm, hp.1, fun hdt => ?_⟩
      have h2 := hp.2
      rw [hdt] at h2
      simp at h2
    · rintro ⟨c, hc, hname, hany, hdt⟩
      refine ⟨c, List.mem_filter.mpr ⟨hc, ?_⟩, hname.symm⟩
      rw [Bool.and_eq_true]
      refine ⟨hany, ?_⟩
      simp [beq_iff_eq, hdt]
  · intro nm
    show nm ∈ cyclicalColsList s.data.cols ↔ _
    unfold cyclicalColsList
    rw [List.mem_map]
    constructor
    · rintro ⟨c, hcf, hname⟩
      have hc := List.mem_of_mem_filter hcf
      have hp := List.of_mem_filter hcf
      rw [Bool.and_eq_true] at hp
      refine ⟨c, hc, hname.symm, ?_, of_decide_eq_true hp.2⟩
      simpa [Column.isNumeric] using hp.1
    · rintro ⟨c, hc, hname, hdt, hpeak⟩
      refine ⟨c, List.mem_filter.mpr ⟨hc, ?_⟩, hname.symm⟩
      rw [Bool.and_eq_true]
      exact ⟨by simp [Column.isNumeric, hdt], decide_eq_true hpeak⟩

/-- Witness for C5 (amended): the two-row dataset has distinct names, its
scan completes, and the validation mapping records zero missing values for
`x` and the duplicate-row count of the table. -/
theorem validation_entries_match_spec_witness :
    (dfW.cols.map Column.name).Nodup ∧ cyclicalRaise dfW.cols = none ∧
    ∃ s' v, validate_data (initState dfW) = .ok s' ∧ s'.validation = some v ∧
      v.duplicateRows = dupCount dfW.rows ∧ v.missingValues.lookup "x" = some 0 := by
  obtain ⟨-, s', hv, v, hval, hmiss, hdup, -, -, -⟩ :=
    validation_entries_match_spec (initState dfW) (by decide) rfl
  refine ⟨by decide, rfl, s', v, hv, hval, hdup, ?_⟩
  have h := hmiss ⟨"x", .numeric, [.num 1, .num 2]⟩ (by decide)
  rw [h]
  decide

end EDABot
